import Mathlib

/-!
Verification of the strategy-router and retrieval-engine core of the
text2sql-adventureworks-sales repository, as a shallow embedding in Lean.

The embedding follows the Python source:
  * `unified_text2sql_streamlit.py` — pattern dictionary, mode detection,
    pattern-match strategy, AutoGen stream consumption, result display/logging;
  * `mlflow_tracking.py` — the experiment ledger (`log_query_experiment`);
  * `text_2_sql_core/connectors/chroma_search.py` — the retrieval engine
    (`run_ai_search_query`, `get_column_values`, `get_entity_schemas`,
    `add_entry_to_index`).

Modelling conventions: Python strings are Lean `String`s (lists of chars);
`.lower()` is `Char.toLower` mapped over the text; the substring test
`needle in hay` is `subListOf` below; floats appearing only in score
comparisons are rationals; external collaborators (the SQL connector, the
embedding provider, the Chroma collection contents, the AutoGen event
stream) are parameters of the embedded functions.
-/

namespace Text2Sql

/-- Whether `needle` occurs as a contiguous sublist of `hay`. -/
def subListOf (needle : List Char) : List Char → Bool
  | [] => needle.isEmpty
  | c :: rest => needle.isPrefixOf (c :: rest) || subListOf needle rest

/-- Python `needle in hay` on strings (substring containment). -/
def pyIn (needle hay : String) : Bool :=
  subListOf needle.toList hay.toList

/-- Python `s.lower()` (ASCII case folding, which covers every string the
router compares). -/
def pyLower (s : String) : String :=
  String.mk (s.toList.map Char.toLower)

/-- The ordered pattern dictionary `PATTERN_QUERIES` of
`unified_text2sql_streamlit.py` (lowercase substring key, fixed SQL value),
in source order.  The multi-line SQL literals are kept with their text
joined by newlines. -/
def PATTERN_QUERIES : List (String × String) :=
  [("how many customers", "SELECT COUNT(*) as customer_count FROM Customer"),
   ("total customers", "SELECT COUNT(*) as customer_count FROM Customer"),
   ("how many products", "SELECT COUNT(*) as product_count FROM Product"),
   ("total products", "SELECT COUNT(*) as product_count FROM Product"),
   ("how many orders", "SELECT COUNT(*) as order_count FROM SalesOrderHeader"),
   ("total orders", "SELECT COUNT(*) as order_count FROM SalesOrderHeader"),
   ("total sales", "SELECT SUM(TotalDue) as total_sales FROM SalesOrderHeader"),
   ("average order", "SELECT AVG(TotalDue) as average_order_value FROM SalesOrderHeader"),
   ("top customers", "SELECT c.FirstName || \x27 \x27 || c.LastName as CustomerName, SUM(s.TotalDue) as TotalSales\nFROM Customer c\nJOIN SalesOrderHeader s ON c.CustomerID = s.CustomerID\nGROUP BY c.CustomerID, CustomerName\nORDER BY TotalSales DESC LIMIT 10"),
   ("top products", "SELECT p.Name, COUNT(sod.SalesOrderDetailID) as TimesSold, SUM(sod.LineTotal) as TotalRevenue\nFROM Product p\nJOIN SalesOrderDetail sod ON p.ProductID = sod.ProductID\nGROUP BY p.ProductID, p.Name\nORDER BY TotalRevenue DESC LIMIT 10"),
   ("product categories", "SELECT pc.Name as Category, COUNT(p.ProductID) as ProductCount\nFROM ProductCategory pc\nLEFT JOIN Product p ON pc.ProductCategoryID = p.ProductCategoryID\nGROUP BY pc.ProductCategoryID, pc.Name\nORDER BY ProductCount DESC"),
   ("recent orders", "SELECT SalesOrderID, OrderDate, TotalDue, Status\nFROM SalesOrderHeader\nORDER BY OrderDate DESC LIMIT 10")]

/-- The curated complexity keywords (`complex_indicators` in
`detect_processing_mode`), in source order. -/
def complex_indicators : List String :=
  ["analysis", "compare", "correlation", "trend", "comprehensive",
   "multi-dimensional", "progression", "deteriorating", "concerning patterns",
   "early warning", "multiple warning signs"]

/-- Whether any pattern-dictionary key occurs in the lowercased question
(the first loop of `detect_processing_mode`). -/
def patternHit (question : String) : Bool :=
  PATTERN_QUERIES.any (fun p => pyIn p.1 (pyLower question))

/-- Whether any complexity indicator occurs in the lowercased question
(the `any(...)` test of `detect_processing_mode`). -/
def complexHit (question : String) : Bool :=
  complex_indicators.any (fun ind => pyIn ind (pyLower question))

/-- `detect_processing_mode(question)` of `unified_text2sql_streamlit.py`:
lowercase the question; return "Pattern Match" when a pattern key occurs as
a substring, else "AutoGen Multi-Agent" when a complexity indicator occurs,
else "AI-Powered". -/
def detect_processing_mode (question : String) : String :=
  if patternHit question then "Pattern Match"
  else if complexHit question then "AutoGen Multi-Agent"
  else "AI-Powered"

/-- A result row returned by the SQL connector (a record of column → value). -/
abbrev Row := List (String × String)

/-- One source attached to an AutoGen answer: its sql_query and sql_rows. -/
structure AgentSource where
  sql_query : String
  sql_rows : List Row
deriving DecidableEq

/-- The response dictionary every processing path of
`unified_text2sql_streamlit.py` produces.  Python dicts carry only some of
these keys; a missing key is `none` / `[]`, matching the `.get` defaults the
consumers use. -/
structure QueryResponse where
  method : String
  response_type : Option String
  answer : Option String
  sql_query : Option String
  results : Option (List Row)
  sources : List AgentSource
  clarification_questions : List String
  user_choices : List String
  follow_up_suggestions : List String
  success : Bool
  error : Option String
  explanation : Option String
  processing_time : Option Rat
  question : Option String
deriving DecidableEq

/-- The response with every optional key absent (the `.get` defaults). -/
def defaultResponse : QueryResponse :=
  { method := "Unknown", response_type := none, answer := none, sql_query := none,
    results := none, sources := [], clarification_questions := [], user_choices := [],
    follow_up_suggestions := [], success := false, error := none, explanation := none,
    processing_time := none, question := none }

/-- `process_pattern_match(question, db_connector)`: lowercase the question,
take the first dictionary key that is a substring match, execute its SQL via
the external connector (`exec`), and return a success or failure response;
return `none` (Python `None`) when no key matches. -/
def process_pattern_match (exec : String → Except String (List Row))
    (question : String) : Option QueryResponse :=
  (PATTERN_QUERIES.find? (fun p => pyIn p.1 (pyLower question))).map (fun pq =>
    match exec pq.2 with
    | Except.ok r =>
        { defaultResponse with
          method := "Pattern Match", sql_query := some pq.2,
          results := some r, success := true,
          explanation := some ("Matched pattern \x27" ++ pq.1 ++ "\x27") }
    | Except.error e =>
        { defaultResponse with
          method := "Pattern Match", sql_query := some pq.2,
          results := none, success := false, error := some e })

/-- One MLflow run of `mlflow_tracking.py`: the parameters and metrics
`log_query_experiment` records for a single resolution attempt.  `success`
is the 0/1 metric the source logs. -/
structure ExperimentRecord where
  run_id : Nat
  question : String
  approach : String
  session_id : String
  execution_time_seconds : Rat
  success : Nat
  sql_query : Option String
  result_count : Nat
  error_message : Option String
deriving DecidableEq

/-- The record `log_query_experiment` builds for one query: success metric
`1 if result.get("success") else 0`, the generated SQL when present, the
result cardinality, and the error message on failure. -/
def mkExperimentRecord (run_id : Nat) (question approach session_id : String)
    (result : QueryResponse) (execution_time : Rat) : ExperimentRecord :=
  { run_id := run_id, question := question, approach := approach,
    session_id := session_id,
    execution_time_seconds := execution_time,
    success := if result.success then 1 else 0,
    sql_query := result.sql_query,
    result_count := match result.results with | some rs => rs.length | none => 0,
    error_message := if result.success then none else result.error }

/-- `Text2SQLMLflowTracker.log_query_experiment`: start a fresh run (the
opaque run id is modelled by the ledger position), append exactly one
record, and hand the run id back.  Failures of the MLflow transport itself
are external and outside the model. -/
def log_query_experiment (ledger : List ExperimentRecord) (question approach : String)
    (result : QueryResponse) (execution_time : Rat) (session_id : String) :
    Nat × List ExperimentRecord :=
  let run_id := ledger.length
  (run_id,
   ledger ++ [mkExperimentRecord run_id question approach session_id result execution_time])

/-- The logging step of `display_unified_results`: every response — success
or failure — is forwarded to `log_query_experiment` exactly once, with the
question, method and processing time read off the response via `.get`
defaults, before anything is shown to the caller. -/
def display_unified_results (ledger : List ExperimentRecord) (session_id : String)
    (response : QueryResponse) : Nat × List ExperimentRecord :=
  log_query_experiment ledger (response.question.getD "") response.method response
    (response.processing_time.getD 0) session_id

/-- The canonical result contract of the spec: which tagged variant a
response dictionary represents. -/
inductive ResolutionVariant where
  | Tabular
  | Disambiguation
  | Failure
deriving DecidableEq

/-- The variant a response dictionary carries: failures are marked by
`success == False`, disambiguation responses by
`response_type == "disambiguation"`, everything else is a tabular-style
answer. -/
def variantOf (r : QueryResponse) : ResolutionVariant :=
  if r.success = false then ResolutionVariant.Failure
  else if r.response_type = some "disambiguation" then ResolutionVariant.Disambiguation
  else ResolutionVariant.Tabular

/-- One disambiguation request inside an AutoGen `disambiguation_requests`
payload, as the consumer reads it (`assistant_question`, `user_choices`). -/
structure DisambiguationRequest where
  assistant_question : Option String
  user_choices : List String
deriving DecidableEq

/-- One event of the AutoGen response stream, as `process_autogen_sync`
distinguishes them by `payload_type.value`.  `otherPayload` stands for any
payload whose type string the consumer does not recognise. -/
inductive AgentPayload where
  | processingUpdate
  | disambiguationRequests (requests : List DisambiguationRequest)
  | answerWithSources (answer : String) (sources : List AgentSource)
      (follow_up_suggestions : List String)
  | otherPayload (payload_type : String) (text : String)
deriving DecidableEq

/-- The `payload_type.value` string of an event. -/
def payloadTypeValue : AgentPayload → String
  | AgentPayload.processingUpdate => "processing_update"
  | AgentPayload.disambiguationRequests _ => "disambiguation_requests"
  | AgentPayload.answerWithSources _ _ _ => "answer_with_sources"
  | AgentPayload.otherPayload t _ => t

/-- The loop condition of `process_autogen_sync`: keep the first event whose
`payload_type.value` differs from `"processing_update"`. -/
def isTerminalEvent (e : AgentPayload) : Bool :=
  !(payloadTypeValue e == "processing_update")

/-- The response returned when the stream yields no terminal event
(`if not response_data`). -/
def noResponseFailure : QueryResponse :=
  { defaultResponse with
    method := "AutoGen Multi-Agent", success := false,
    error := some "No response received from AutoGen system" }

/-- How `process_autogen_sync` turns the terminal event into a response
dictionary: the `disambiguation_requests`, `answer_with_sources` and
unknown-type branches of the source.  The `processingUpdate` case can never
be selected by `List.find? isTerminalEvent` and is mapped to the no-response
failure. -/
def mapTerminal : AgentPayload → QueryResponse
  | AgentPayload.disambiguationRequests reqs =>
      { defaultResponse with
        method := "AutoGen Multi-Agent",
        response_type := some "disambiguation",
        clarification_questions := reqs.filterMap (fun r =>
          match r.assistant_question with
          | some s => if s == "" then none else some s
          | none => none),
        user_choices := (reqs.map (fun r => r.user_choices)).flatten,
        success := true,
        explanation := some "AutoGen is requesting clarification to provide better analysis" }
  | AgentPayload.answerWithSources ans sources follows =>
      { defaultResponse with
        method := "AutoGen Multi-Agent",
        response_type := some "answer",
        answer := some ans,
        sql_query := (sources.getLast?).map (fun s => s.sql_query),
        results := some (((sources.getLast?).map (fun s => s.sql_rows)).getD []),
        follow_up_suggestions := follows,
        sources := sources,
        success := true,
        explanation := some "AutoGen multi-agent processing completed" }
  | AgentPayload.otherPayload t text =>
      { defaultResponse with
        method := "AutoGen Multi-Agent",
        response_type := some "unknown",
        answer := some text,
        success := true,
        explanation := some ("AutoGen processing completed (type: " ++ t ++ ")") }
  | AgentPayload.processingUpdate => noResponseFailure

/-- `process_autogen_sync`: consume the event stream, discard every event
whose payload type is `"processing_update"`, map the first terminal event
(`break` in the source); when none arrives, return the no-response
failure. -/
def process_autogen_sync (events : List AgentPayload) : QueryResponse :=
  match events.find? isTerminalEvent with
  | none => noResponseFailure
  | some e => mapTerminal e

/-- `ChromaSearchConnector.run_ai_search_query`: the collection's answers to
the two kinds of query are oracle inputs (`vectorResults` for the
query-by-embedding branch, `textResults` for the full-text branch), each a
list of (metadata, cosine distance) candidates.  The branch is chosen by
whether `vector_fields` is non-empty; at most `top` candidates are
considered; each score is `1 - distance`; a candidate is dropped when
`minimum_score` is supplied and its score is below `minimum_score / 4`;
the score is attached to the returned entry only when `include_scores`. -/
def run_ai_search_query {α : Type} (vectorResults textResults : List (α × Rat))
    (vector_fields : List String) (top : Nat) (include_scores : Bool)
    (minimum_score : Option Rat) : List (α × Option Rat) :=
  let results := if 0 < vector_fields.length then vectorResults.take top
                 else textResults.take top
  results.filterMap (fun c =>
    let score := 1 - c.2
    match minimum_score with
    | some m =>
        if score < m / 4 then none
        else some (c.1, if include_scores then some score else none)
    | none => some (c.1, if include_scores then some score else none))

/-- `ChromaSearchConnector.get_column_values`: a full-text query
(`vector_fields=[]`) with the fixed parameters `top=50`,
`include_scores=False`, `minimum_score=5`. -/
def get_column_values {α : Type} (vectorResults textResults : List (α × Rat)) :
    List (α × Option Rat) :=
  run_ai_search_query vectorResults textResults [] 50 false (some 5)

/-- A schema record stored in the schema collection, with the keys
`get_entity_schemas` touches; a key a record does not carry is `none`. -/
structure EntitySchema where
  FQN : Option String
  Entity : Option String
  Definition : Option String
  CompleteEntityRelationshipsGraph : Option (List String)
  SampleValues : Option (List String)
  EntityRelationships : Option (List String)
deriving DecidableEq

/-- Python `s.replace(pat, "")` on char lists: remove the leftmost
occurrences of `pat`, scanning left to right without overlap; an empty
pattern leaves the text unchanged.  The fuel argument (instantiated with
the text's length, which the scan never exceeds) makes the recursion
structural. -/
def replaceAllFuel (pat : List Char) : Nat → List Char → List Char
  | _, [] => []
  | 0, s => s
  | fuel + 1, c :: rest =>
      if 0 < pat.length && pat.isPrefixOf (c :: rest) then
        replaceAllFuel pat fuel (rest.drop (pat.length - 1))
      else
        c :: replaceAllFuel pat fuel rest

/-- Python `s.replace(pat, "")` on strings (the graph rewrite
`x.replace(fqn_to_trim, "")` of `get_entity_schemas`). -/
def pyReplaceAll (s pat : String) : String :=
  String.mk (replaceAllFuel pat.toList s.toList.length s.toList)

/-- `del schema["FQN"]` (guarded by `if "FQN" in schema`). -/
def delFQN (s : EntitySchema) : EntitySchema := { s with FQN := none }

/-- The `CompleteEntityRelationshipsGraph` step of `get_entity_schemas`:
delete the key when present-but-empty, else rewrite every relationship
string with `x.replace(fqn_to_trim, "")` when the graph is non-empty. -/
def trimGraph (fqn_to_trim : String) (s : EntitySchema) : EntitySchema :=
  match s.CompleteEntityRelationshipsGraph with
  | some g =>
      if g.length = 0 then { s with CompleteEntityRelationshipsGraph := none }
      else { s with
             CompleteEntityRelationshipsGraph :=
               some (g.map (fun x => pyReplaceAll x fqn_to_trim)) }
  | none => s

/-- `del schema["SampleValues"]` when present and empty. -/
def delEmptySampleValues (s : EntitySchema) : EntitySchema :=
  match s.SampleValues with
  | some v => if v.length = 0 then { s with SampleValues := none } else s
  | none => s

/-- `del schema["EntityRelationships"]` when present and empty. -/
def delEmptyEntityRelationships (s : EntitySchema) : EntitySchema :=
  match s.EntityRelationships with
  | some v => if v.length = 0 then { s with EntityRelationships := none } else s
  | none => s

/-- The per-entry body of the post-processing loop of `get_entity_schemas`:
FQN removal, graph handling, empty-field deletion, then the exclusion test
on the lowercased `Entity` name (`none` = entry dropped). -/
def postprocessSchema (excluded_entities : List String) (fqn_to_trim : String)
    (schema : EntitySchema) : Option EntitySchema :=
  let s4 := delEmptyEntityRelationships (delEmptySampleValues
              (trimGraph fqn_to_trim (delFQN schema)))
  if pyLower (s4.Entity.getD "") ∈ excluded_entities then none else some s4

/-- The retrieval step of `get_entity_schemas`: a vector query on
`DefinitionEmbedding` with `top=3`, `minimum_score=1.5`, scores not
attached. -/
def raw_entity_search (searchResults : List (EntitySchema × Rat)) : List EntitySchema :=
  (run_ai_search_query searchResults [] ["DefinitionEmbedding"] 3 false
    (some (3 / 2))).map Prod.fst

/-- `ChromaSearchConnector.get_entity_schemas`: run the vector query; when
`excluded_entities` is empty return the raw matches unchanged, else apply
the post-processing loop entry by entry. -/
def get_entity_schemas (searchResults : List (EntitySchema × Rat))
    (excluded_entities : List String) (engine_specific_fields : List String) :
    List EntitySchema :=
  let schemas := raw_entity_search searchResults
  let fqn_to_trim := String.intercalate "." engine_specific_fields
  if excluded_entities.length = 0 then schemas
  else schemas.filterMap (postprocessSchema excluded_entities fqn_to_trim)

/-- The relationship rewrite as the claim words it: strip one leading
occurrence of the joined engine-specific fields from the front of the
string and leave the remainder unchanged.  Stated only to be compared
against the source's `pyReplaceAll`-based rewrite. -/
def stripJoinedLeadingSpec (s pat : String) : String :=
  if pat.toList.isPrefixOf s.toList then String.mk (s.toList.drop pat.toList.length)
  else s

/-- A byte string: a Python `bytes` value (each entry below 256).  A Python
`str` stored in a document is modelled by its UTF-8 byte sequence, so
`str.encode()` is the identity on this representation. -/
abbrev Bytes := List Nat

/-- The index of a sextet in the urlsafe base64 alphabet
(`A`-`Z`, `a`-`z`, `0`-`9`, `-`, `_`), as a character. -/
def sextetChar (n : Nat) : Char :=
  if n < 26 then Char.ofNat (65 + n)
  else if n < 52 then Char.ofNat (97 + (n - 26))
  else if n < 62 then Char.ofNat (48 + (n - 52))
  else if n = 62 then Char.ofNat 45
  else Char.ofNat 95

/-- The sextet a urlsafe base64 alphabet character stands for. -/
def sextetVal (c : Char) : Nat :=
  if 65 ≤ c.toNat ∧ c.toNat ≤ 90 then c.toNat - 65
  else if 97 ≤ c.toNat ∧ c.toNat ≤ 122 then (c.toNat - 97) + 26
  else if 48 ≤ c.toNat ∧ c.toNat ≤ 57 then (c.toNat - 48) + 52
  else if c.toNat = 45 then 62
  else 63

/-- `base64.urlsafe_b64encode`: three bytes become four alphabet
characters; a trailing one- or two-byte group is padded with `=`. -/
def b64encodeBytes : Bytes → List Char
  | [] => []
  | [b1] => [sextetChar (b1 / 4), sextetChar (b1 % 4 * 16), '=', '=']
  | [b1, b2] => [sextetChar (b1 / 4), sextetChar (b1 % 4 * 16 + b2 / 16),
                 sextetChar (b2 % 16 * 4), '=']
  | b1 :: b2 :: b3 :: rest =>
      sextetChar (b1 / 4) :: sextetChar (b1 % 4 * 16 + b2 / 16) ::
      sextetChar (b2 % 16 * 4 + b3 / 64) :: sextetChar (b3 % 64) ::
      b64encodeBytes rest

/-- The inverse of `b64encodeBytes`, witnessing that the document identity
is a reversible encoding of the question bytes. -/
def b64decodeBytes : List Char → Option Bytes
  | [] => some []
  | c1 :: c2 :: c3 :: c4 :: rest =>
      if c3 = '=' ∧ c4 = '=' ∧ rest = [] then
        some [sextetVal c1 * 4 + sextetVal c2 / 16]
      else if c4 = '=' ∧ rest = [] then
        some [sextetVal c1 * 4 + sextetVal c2 / 16,
              sextetVal c2 % 16 * 16 + sextetVal c3 / 4]
      else
        match b64decodeBytes rest with
        | some tail =>
            some ((sextetVal c1 * 4 + sextetVal c2 / 16) ::
                  (sextetVal c2 % 16 * 16 + sextetVal c3 / 4) ::
                  (sextetVal c3 % 4 * 64 + sextetVal c4) :: tail)
        | none => none
  | _ => none

/-- The stored identity of a document:
`base64.urlsafe_b64encode(document["Question"].encode()).decode("utf-8")`. -/
def questionId (q : Bytes) : String := String.mk (b64encodeBytes q)

/-- A Python dict with byte-string values, as an ordered association
list. -/
abbrev PyDict := List (String × Bytes)

/-- `d[k]` as an option (`None` when the key is absent). -/
def dictGet (d : PyDict) (k : String) : Option Bytes :=
  (d.find? (fun p => p.1 == k)).map (fun p => p.2)

/-- `d[k] = v`: overwrite the key in place when present, else append it. -/
def pySet (d : PyDict) (k : String) (v : Bytes) : PyDict :=
  if d.any (fun p => p.1 == k) then d.map (fun p => if p.1 == k then (k, v) else p)
  else d ++ [(k, v)]

/-- One stored Chroma record: the embedding, the metadata dict, and the
document text (`documents=[document.get("Question", "")]`). -/
structure ChromaEntry where
  embedding : List Rat
  metadata : PyDict
  document : Bytes
deriving DecidableEq

/-- `collection.upsert(ids=[id], ...)` on a keyed, unordered store:
whatever entry held that id is replaced by the new one, so the store keeps
at most one entry per id it was ever upserted with. -/
def chromaUpsert (col : List (String × ChromaEntry)) (id : String)
    (e : ChromaEntry) : List (String × ChromaEntry) :=
  col.filter (fun p => !(p.1 == id)) ++ [(id, e)]

/-- The record one `add_entry_to_index` call stores: the embedding of the
first vector field's value (`embeddings.data[0]`), the metadata (every
document key not among `vector_fields.values()`, after the
`DateLastModified` stamp), and the question text. -/
def mkChromaEntry (document : PyDict) (vector_fields : List (String × String))
    (now : Bytes) (embedOracle : List Bytes → List (List Rat)) : ChromaEntry :=
  let document2 := pySet document "DateLastModified" now
  let fields_to_embed := vector_fields.map (fun f => (dictGet document f.1).getD [])
  { embedding := (embedOracle fields_to_embed).headD [],
    metadata := document2.filter (fun p =>
      !(vector_fields.any (fun vf => vf.2 == p.1))),
    document := (dictGet document2 "Question").getD [] }

/-- `ChromaSearchConnector.add_entry_to_index`: validate that every
`vector_fields` key exists in the document (else return with the store
unchanged — logged, not raised); stamp `DateLastModified`; derive the
document id from the question bytes; upsert.  A document with no
`"Question"` key raises a `KeyError` the source catches, leaving the store
unchanged. -/
def add_entry_to_index (col : List (String × ChromaEntry)) (document : PyDict)
    (vector_fields : List (String × String)) (now : Bytes)
    (embedOracle : List Bytes → List (List Rat)) : List (String × ChromaEntry) :=
  if vector_fields.any (fun f => (dictGet document f.1).isNone) then col
  else
    match dictGet (pySet document "DateLastModified" now) "Question" with
    | none => col
    | some qbytes =>
        chromaUpsert col (questionId qbytes)
          (mkChromaEntry document vector_fields now embedOracle)

end Text2Sql

namespace Text2Sql

/-- C1: with no explicit override, classification returns Pattern Match
exactly when a pattern-dictionary key occurs (case-insensitively) as a
substring of the question; otherwise AutoGen Multi-Agent exactly when a
complexity keyword occurs; otherwise AI-Powered — and the result is a
deterministic pure function of the lowercased question. -/
theorem C1_classification (q : String) :
    (detect_processing_mode q = "Pattern Match" ↔
       ∃ p ∈ PATTERN_QUERIES, pyIn p.1 (pyLower q) = true) ∧
    ((¬ ∃ p ∈ PATTERN_QUERIES, pyIn p.1 (pyLower q) = true) →
       (detect_processing_mode q = "AutoGen Multi-Agent" ↔
          ∃ i ∈ complex_indicators, pyIn i (pyLower q) = true)) ∧
    ((¬ ∃ p ∈ PATTERN_QUERIES, pyIn p.1 (pyLower q) = true) →
       (¬ ∃ i ∈ complex_indicators, pyIn i (pyLower q) = true) →
         detect_processing_mode q = "AI-Powered") ∧
    (∀ q2 : String, pyLower q2 = pyLower q →
       detect_processing_mode q2 = detect_processing_mode q) := by
  have hpat : patternHit q = true ↔ ∃ p ∈ PATTERN_QUERIES, pyIn p.1 (pyLower q) = true := by
    simp [patternHit, List.any_eq_true]
  have hcomp : complexHit q = true ↔ ∃ i ∈ complex_indicators, pyIn i (pyLower q) = true := by
    simp [complexHit, List.any_eq_true]
  have hdet : ∀ q2 : String, pyLower q2 = pyLower q →
      detect_processing_mode q2 = detect_processing_mode q := by
    intro q2 h2
    unfold detect_processing_mode patternHit complexHit pyIn
    rw [h2]
  refine ⟨?_, ?_, ?_, hdet⟩
  · constructor
    · intro h
      by_cases hp : patternHit q
      · exact hpat.mp hp
      · exfalso
        unfold detect_processing_mode at h
        rw [if_neg hp] at h
        by_cases hc : complexHit q
        · rw [if_pos hc] at h; exact absurd h (by decide)
        · rw [if_neg hc] at h; exact absurd h (by decide)
    · intro h
      unfold detect_processing_mode
      rw [if_pos (hpat.mpr h)]
  · intro hnp
    have hp : patternHit q = false := by
      cases hb : patternHit q
      · rfl
      · exact absurd (hpat.mp hb) hnp
    constructor
    · intro h
      by_cases hc : complexHit q
      · exact hcomp.mp hc
      · exfalso
        unfold detect_processing_mode at h
        rw [if_neg (by simp [hp]), if_neg hc] at h
        exact absurd h (by decide)
    · intro h
      unfold detect_processing_mode
      rw [if_neg (by simp [hp]), if_pos (hcomp.mpr h)]
  · intro hnp hnc
    have hp : patternHit q = false := by
      cases hb : patternHit q
      · rfl
      · exact absurd (hpat.mp hb) hnp
    have hc : complexHit q = false := by
      cases hb : complexHit q
      · rfl
      · exact absurd (hcomp.mp hb) hnc
    unfold detect_processing_mode
    rw [if_neg (by simp [hp]), if_neg (by simp [hc])]

end Text2Sql

namespace Text2Sql

/-- C2: for every dispatch of a resolution attempt, exactly one
ExperimentRecord is appended to the ledger before the result reaches the
caller, regardless of outcome, and its success metric matches the returned
variant: 1 for Tabular/Disambiguation results, 0 for Failure results. -/
theorem C2_experiment_ledger (ledger : List ExperimentRecord) (sid : String)
    (resp : QueryResponse) :
    ∃ rec : ExperimentRecord,
      (display_unified_results ledger sid resp).2 = ledger ++ [rec] ∧
      (rec.success = 1 ↔ variantOf resp ≠ ResolutionVariant.Failure) ∧
      (rec.success = 0 ↔ variantOf resp = ResolutionVariant.Failure) := by
  refine ⟨_, rfl, ?_, ?_⟩ <;>
  · unfold mkExperimentRecord variantOf
    cases h : resp.success
    · simp [h]
    · simp only [h, if_true, Bool.true_eq_false, if_false, if_neg]
      split <;> simp

/-- C9: whenever the classifier selects Pattern Match, the pattern-match
strategy on the same question finds a matching dictionary key, so its
no-match sentinel (`None`) branch is unreachable after classification,
whatever the SQL connector does. -/
theorem C9_pattern_unreachable_sentinel (question : String)
    (exec : String → Except String (List Row))
    (h : detect_processing_mode question = "Pattern Match") :
    process_pattern_match exec question ≠ none := by
  have hp : patternHit question = true := by
    by_contra hb
    have hb' : patternHit question = false := by
      cases hx : patternHit question
      · rfl
      · exact absurd hx hb
    unfold detect_processing_mode at h
    rw [if_neg (by simp [hb'])] at h
    by_cases hc : complexHit question
    · rw [if_pos hc] at h; exact absurd h (by decide)
    · rw [if_neg hc] at h; exact absurd h (by decide)
  unfold process_pattern_match
  have hfind : (PATTERN_QUERIES.find? (fun p => pyIn p.1 (pyLower question))).isSome := by
    rw [List.find?_isSome]
    unfold patternHit at hp
    rw [List.any_eq_true] at hp
    exact hp
  obtain ⟨pq, hpq⟩ := Option.isSome_iff_exists.mp hfind
  rw [hpq]
  simp

/-- Witness for C9 at the concrete question of the spec's scenario A. -/
theorem C9_pattern_unreachable_sentinel_witness :
    (process_pattern_match (fun _ => Except.ok []) "How many customers do we have?").isSome
      = true := by
  have h := C9_pattern_unreachable_sentinel "How many customers do we have?"
    (fun _ => Except.ok []) (by decide)
  cases hx : process_pattern_match (fun _ => Except.ok []) "How many customers do we have?"
  · exact absurd hx h
  · rfl

/-- C10: the router consumes the AutoGen event stream discarding every
processing-update event; the first terminal event is mapped to a
disambiguation result or a tabular-style answer result respectively, and a
stream with no terminal event yields the failure response (success false,
no-response error), not a success. -/
theorem C10_autogen_stream (events : List AgentPayload) :
    (events.find? isTerminalEvent = none →
       process_autogen_sync events = noResponseFailure ∧
       noResponseFailure.success = false ∧
       noResponseFailure.error = some "No response received from AutoGen system") ∧
    (∀ reqs, events.find? isTerminalEvent
         = some (AgentPayload.disambiguationRequests reqs) →
       (process_autogen_sync events).response_type = some "disambiguation" ∧
       (process_autogen_sync events).success = true ∧
       variantOf (process_autogen_sync events) = ResolutionVariant.Disambiguation) ∧
    (∀ ans sources follows, events.find? isTerminalEvent
         = some (AgentPayload.answerWithSources ans sources follows) →
       (process_autogen_sync events).response_type = some "answer" ∧
       (process_autogen_sync events).success = true ∧
       variantOf (process_autogen_sync events) = ResolutionVariant.Tabular) ∧
    (∀ es : List AgentPayload,
       process_autogen_sync (AgentPayload.processingUpdate :: es)
         = process_autogen_sync es) := by
  refine ⟨?_, ?_, ?_, ?_⟩
  · intro hnone
    unfold process_autogen_sync
    rw [hnone]
    refine ⟨rfl, ?_, ?_⟩ <;> simp [noResponseFailure, defaultResponse]
  · intro reqs hfind
    unfold process_autogen_sync
    rw [hfind]
    simp [mapTerminal, variantOf, defaultResponse]
  · intro ans sources follows hfind
    unfold process_autogen_sync
    rw [hfind]
    refine ⟨rfl, rfl, ?_⟩
    simp [mapTerminal, variantOf, defaultResponse]
  · intro es
    unfold process_autogen_sync
    rw [List.find?_cons_of_neg]
    decide

end Text2Sql

namespace Text2Sql

/-- Helper: the length of the filtered output of the score loop equals the
number of candidates meeting the rescaled threshold. -/
theorem filterMapThresholdLength {α : Type} (l : List (α × Rat)) (m : Rat) (b : Bool) :
    (l.filterMap (fun c =>
        if 1 - c.2 < m / 4 then none
        else some (c.1, if b then some (1 - c.2) else none))).length =
    (l.filter (fun c => decide (m / 4 ≤ 1 - c.2))).length := by
  induction l with
  | nil => rfl
  | cons c cs ih =>
      by_cases h : 1 - c.2 < m / 4
      · simp [List.filterMap_cons, List.filter_cons, h, not_le.mpr h, ih]
      · simp [List.filterMap_cons, List.filter_cons, h, not_lt.mp h, ih]

/-- C3: whenever `minimum_score` is supplied, every returned entry's score
is at least `minimum_score / 4`, and exactly the candidates meeting that
rescaled threshold survive — in the vector branch and the full-text branch
alike. -/
theorem C3_minimum_score_filter {α : Type} (vr tr : List (α × Rat)) (vf : List String)
    (top : Nat) (m : Rat) (include_scores : Bool) :
    (∀ (e : α) (s : Rat),
       (e, some s) ∈ run_ai_search_query vr tr vf top true (some m) → m / 4 ≤ s) ∧
    ((run_ai_search_query vr tr vf top include_scores (some m)).length =
      ((if 0 < vf.length then vr.take top else tr.take top).filter
         (fun c => decide (m / 4 ≤ 1 - c.2))).length) := by
  constructor
  · intro e s hmem
    unfold run_ai_search_query at hmem
    simp only [List.mem_filterMap] at hmem
    obtain ⟨c, _, heq⟩ := hmem
    by_cases h : 1 - c.2 < m / 4
    · rw [if_pos h] at heq
      exact absurd heq (by simp)
    · rw [if_neg h] at heq
      have hs : 1 - c.2 = s := by
        have := Option.some.inj heq
        exact congrArg (fun x => (Prod.snd x).getD 0) this
      rw [← hs]
      exact not_lt.mp h
  · unfold run_ai_search_query
    by_cases hvf : 0 < vf.length
    · simp only [if_pos hvf]
      exact filterMapThresholdLength _ m include_scores
    · simp only [if_neg hvf]
      exact filterMapThresholdLength _ m include_scores

/-- C4: `get_column_values` queries with `top=50` and `minimum_score=5`, an
effective threshold of 5/4; since every score is `1 - cosine_distance` and
cosine distances are non-negative, no score reaches 5/4 and the result is
always the empty sequence. -/
theorem C4_column_values_empty {α : Type} (vr tr : List (α × Rat))
    (h : ∀ c ∈ tr, 0 ≤ c.2) :
    get_column_values vr tr = [] := by
  unfold get_column_values run_ai_search_query
  simp only [List.length_nil, lt_irrefl, if_false]
  rw [List.filterMap_eq_nil_iff]
  intro c hc
  have h0 : 0 ≤ c.2 := h c (List.mem_of_mem_take hc)
  have hlt : 1 - c.2 < 5 / 4 := by linarith
  simp [hlt]

/-- Witness for C4 on a concrete one-candidate collection. -/
theorem C4_column_values_empty_witness :
    get_column_values ([] : List (Nat × Rat)) [((0 : Nat), (0 : Rat))] = [] :=
  C4_column_values_empty [] [((0 : Nat), (0 : Rat))] (by decide)

end Text2Sql

namespace Text2Sql

/-- Helper: the sample-values deletion step touches no other field. -/
theorem delEmptySampleValuesProj (s : EntitySchema) :
    (delEmptySampleValues s).FQN = s.FQN ∧
    (delEmptySampleValues s).Entity = s.Entity ∧
    (delEmptySampleValues s).CompleteEntityRelationshipsGraph
      = s.CompleteEntityRelationshipsGraph := by
  unfold delEmptySampleValues
  cases h : s.SampleValues with
  | none => exact ⟨rfl, rfl, rfl⟩
  | some v => by_cases hv : v.length = 0 <;> simp [hv]

/-- Helper: the entity-relationships deletion step touches no other field. -/
theorem delEmptyEntityRelationshipsProj (s : EntitySchema) :
    (delEmptyEntityRelationships s).FQN = s.FQN ∧
    (delEmptyEntityRelationships s).Entity = s.Entity ∧
    (delEmptyEntityRelationships s).CompleteEntityRelationshipsGraph
      = s.CompleteEntityRelationshipsGraph := by
  unfold delEmptyEntityRelationships
  cases h : s.EntityRelationships with
  | none => exact ⟨rfl, rfl, rfl⟩
  | some v => by_cases hv : v.length = 0 <;> simp [hv]

/-- Helper: the graph step keeps FQN and Entity and rewrites the graph as
the source does. -/
theorem trimGraphProj (t : String) (s : EntitySchema) :
    (trimGraph t s).FQN = s.FQN ∧
    (trimGraph t s).Entity = s.Entity ∧
    (trimGraph t s).CompleteEntityRelationshipsGraph =
      (match s.CompleteEntityRelationshipsGraph with
       | none => none
       | some g => if g.length = 0 then none
                   else some (g.map (fun x => pyReplaceAll x t))) := by
  unfold trimGraph
  cases h : s.CompleteEntityRelationshipsGraph with
  | none => exact ⟨rfl, rfl, h⟩
  | some g => by_cases hg : g.length = 0 <;> simp [hg]

/-- Helper: what a surviving entry of the post-processing loop looks like:
FQN removed, entity not excluded, entity name unchanged, graph rewritten. -/
theorem postprocessSchemaSome (excluded : List String) (t : String)
    (s u : EntitySchema) (h : postprocessSchema excluded t s = some u) :
    u.FQN = none ∧ pyLower (u.Entity.getD "") ∉ excluded ∧ u.Entity = s.Entity ∧
    u.CompleteEntityRelationshipsGraph =
      (match s.CompleteEntityRelationshipsGraph with
       | none => none
       | some g => if g.length = 0 then none
                   else some (g.map (fun x => pyReplaceAll x t))) := by
  unfold postprocessSchema at h
  by_cases hmem :
      pyLower ((delEmptyEntityRelationships (delEmptySampleValues
        (trimGraph t (delFQN s)))).Entity.getD "") ∈ excluded
  · rw [if_pos hmem] at h
    exact absurd h (by simp)
  · rw [if_neg hmem] at h
    have hu : u = delEmptyEntityRelationships (delEmptySampleValues
        (trimGraph t (delFQN s))) := (Option.some.inj h).symm
    obtain ⟨e1, e2, e3⟩ := delEmptyEntityRelationshipsProj
      (delEmptySampleValues (trimGraph t (delFQN s)))
    obtain ⟨f1, f2, f3⟩ := delEmptySampleValuesProj (trimGraph t (delFQN s))
    obtain ⟨g1, g2, g3⟩ := trimGraphProj t (delFQN s)
    subst hu
    refine ⟨?_, hmem, ?_, ?_⟩
    · rw [e1, f1, g1]; rfl
    · rw [e2, f2, g2]; rfl
    · rw [e3, f3, g3]; rfl

/-- C5: with a non-empty exclusion list, no returned entry keeps an FQN key
and no returned entry's lowercased entity name is among the excluded
entities. -/
theorem C5_exclusion (rs : List (EntitySchema × Rat)) (excluded esf : List String)
    (h : excluded.length ≠ 0) :
    ∀ s ∈ get_entity_schemas rs excluded esf,
      s.FQN = none ∧ pyLower (s.Entity.getD "") ∉ excluded := by
  intro s hs
  simp only [get_entity_schemas] at hs
  rw [if_neg h] at hs
  obtain ⟨x, _, hx⟩ := List.mem_filterMap.mp hs
  have hp := postprocessSchemaSome excluded _ x s hx
  exact ⟨hp.1, hp.2.1⟩

/-- Witness for C5 on a concrete retrieval result. -/
theorem C5_exclusion_witness :
    (get_entity_schemas
        [(⟨some "db.tbl", some "Tbl", none, some ["a.db.b"], some [], none⟩, 0)]
        ["zzz"] ["db"])
      = [⟨none, some "Tbl", none, some ["a..b"], none, none⟩] ∧
    EntitySchema.FQN ⟨none, some "Tbl", none, some ["a..b"], none, none⟩ = none := by
  have hraw : raw_entity_search
      [(⟨some "db.tbl", some "Tbl", none, some ["a.db.b"], some [], none⟩, 0)]
      = [⟨some "db.tbl", some "Tbl", none, some ["a.db.b"], some [], none⟩] := by
    unfold raw_entity_search run_ai_search_query
    norm_num [List.filterMap_cons]
  have hget : (get_entity_schemas
      [(⟨some "db.tbl", some "Tbl", none, some ["a.db.b"], some [], none⟩, 0)]
      ["zzz"] ["db"])
      = [⟨none, some "Tbl", none, some ["a..b"], none, none⟩] := by
    simp only [get_entity_schemas, hraw]
    decide
  exact ⟨hget, (C5_exclusion
    [(⟨some "db.tbl", some "Tbl", none, some ["a.db.b"], some [], none⟩, 0)]
    ["zzz"] ["db"] (by decide)
    ⟨none, some "Tbl", none, some ["a..b"], none, none⟩
    (by rw [hget]; exact List.mem_singleton.mpr rfl)).1⟩

/-- C6: with an empty exclusion list, all post-processing is skipped and
the raw retrieval matches are returned unchanged. -/
theorem C6_empty_exclusion (rs : List (EntitySchema × Rat)) (esf : List String) :
    get_entity_schemas rs [] esf = raw_entity_search rs := by
  simp [get_entity_schemas]

end Text2Sql

namespace Text2Sql

/-- C7 (amended): with non-empty `excluded_entities`, every returned entry's
relationship graph is obtained from the raw match by deleting rather than
rewriting an empty graph, and otherwise rewriting every relationship string
with Python `x.replace(fqn_to_trim, "")`, which removes every occurrence of
the joined `engine_specific_fields` string — not only a leading one. -/
theorem C7_graph_rewrite (rs : List (EntitySchema × Rat)) (excluded esf : List String)
    (h : excluded.length ≠ 0) :
    ∀ u ∈ get_entity_schemas rs excluded esf,
      ∃ s ∈ raw_entity_search rs,
        u.CompleteEntityRelationshipsGraph =
          (match s.CompleteEntityRelationshipsGraph with
           | none => none
           | some g =>
               if g.length = 0 then none
               else some (g.map (fun x =>
                 pyReplaceAll x (String.intercalate "." esf)))) := by
  intro u hu
  simp only [get_entity_schemas] at hu
  rw [if_neg h] at hu
  obtain ⟨x, hx, hpost⟩ := List.mem_filterMap.mp hu
  exact ⟨x, hx, (postprocessSchemaSome excluded _ x u hpost).2.2.2⟩

/-- Witness for C7 on a concrete retrieval result whose graph contains the
joined engine-specific string in the middle. -/
theorem C7_graph_rewrite_witness :
    ∃ s ∈ raw_entity_search
        [(⟨none, some "Tbl", none, some ["a.db.b"], none, none⟩, 0)],
      EntitySchema.CompleteEntityRelationshipsGraph
          ⟨none, some "Tbl", none, some ["a..b"], none, none⟩ =
        (match s.CompleteEntityRelationshipsGraph with
         | none => none
         | some g =>
             if g.length = 0 then none
             else some (g.map (fun x =>
               pyReplaceAll x (String.intercalate "." ["db"])))) := by
  have hraw : raw_entity_search
      [(⟨none, some "Tbl", none, some ["a.db.b"], none, none⟩, 0)]
      = [⟨none, some "Tbl", none, some ["a.db.b"], none, none⟩] := by
    unfold raw_entity_search run_ai_search_query
    norm_num [List.filterMap_cons]
  have hget : (get_entity_schemas
      [(⟨none, some "Tbl", none, some ["a.db.b"], none, none⟩, 0)]
      ["zzz"] ["db"])
      = [⟨none, some "Tbl", none, some ["a..b"], none, none⟩] := by
    simp only [get_entity_schemas, hraw]
    decide
  exact C7_graph_rewrite
    [(⟨none, some "Tbl", none, some ["a.db.b"], none, none⟩, 0)]
    ["zzz"] ["db"] (by decide)
    ⟨none, some "Tbl", none, some ["a..b"], none, none⟩
    (by rw [hget]; exact List.mem_singleton.mpr rfl)

/-- Counterexample for C7 as frozen: on the relationship string "a.db.b"
with engine-specific fields ["db"], the code produces "a..b" (every
occurrence of "db" removed), while stripping a leading "db" and leaving the
remainder unchanged would produce "a.db.b"; the two disagree. -/
theorem C7_counterexample_replace :
    (get_entity_schemas [(⟨none, some "Tbl", none, some ["a.db.b"], none, none⟩, 0)]
        ["zzz"] ["db"]).map EntitySchema.CompleteEntityRelationshipsGraph
      = [some ["a..b"]] ∧
    stripJoinedLeadingSpec "a.db.b" "db" = "a.db.b" ∧
    decide ((get_entity_schemas
        [(⟨none, some "Tbl", none, some ["a.db.b"], none, none⟩, 0)]
        ["zzz"] ["db"]).map EntitySchema.CompleteEntityRelationshipsGraph
      = [some [stripJoinedLeadingSpec "a.db.b" "db"]]) = false := by
  have hraw : raw_entity_search
      [(⟨none, some "Tbl", none, some ["a.db.b"], none, none⟩, 0)]
      = [⟨none, some "Tbl", none, some ["a.db.b"], none, none⟩] := by
    unfold raw_entity_search run_ai_search_query
    norm_num [List.filterMap_cons]
  have hget : (get_entity_schemas
      [(⟨none, some "Tbl", none, some ["a.db.b"], none, none⟩, 0)]
      ["zzz"] ["db"])
      = [⟨none, some "Tbl", none, some ["a..b"], none, none⟩] := by
    simp only [get_entity_schemas, hraw]
    decide
  refine ⟨by rw [hget]; decide, by decide, by rw [hget]; decide⟩

end Text2Sql

namespace Text2Sql

/-- Helper: decoding inverts the alphabet map on every sextet. -/
theorem sextetValSextetChar (n : Nat) (h : n < 64) : sextetVal (sextetChar n) = n := by
  have hall : ∀ m : Fin 64, sextetVal (sextetChar m.val) = m.val := by decide
  exact hall ⟨n, h⟩

/-- Helper: no alphabet character is the padding character. -/
theorem sextetCharNePad (n : Nat) (h : n < 64) : ¬(sextetChar n = '=') := by
  have hall : ∀ m : Fin 64, ¬(sextetChar m.val = '=') := by decide
  exact hall ⟨n, h⟩

/-- Helper: base64 decoding inverts base64 encoding on byte strings, so the
document identity is a reversible encoding of the question bytes. -/
theorem b64RoundTrip : ∀ l : Bytes, (∀ b ∈ l, b < 256) →
    b64decodeBytes (b64encodeBytes l) = some l
  | [], _ => rfl
  | [b1], h => by
      have hb1 : b1 < 256 := h b1 (by simp)
      have h1 : b1 / 4 < 64 := by omega
      have h2 : b1 % 4 * 16 < 64 := by omega
      simp only [b64encodeBytes, b64decodeBytes]
      rw [if_pos (by simp)]
      rw [sextetValSextetChar _ h1, sextetValSextetChar _ h2]
      have hb : b1 / 4 * 4 + b1 % 4 * 16 / 16 = b1 := by omega
      rw [hb]
  | [b1, b2], h => by
      have hb1 : b1 < 256 := h b1 (by simp)
      have hb2 : b2 < 256 := h b2 (by simp)
      have h1 : b1 / 4 < 64 := by omega
      have h2 : b1 % 4 * 16 + b2 / 16 < 64 := by omega
      have h3 : b2 % 16 * 4 < 64 := by omega
      simp only [b64encodeBytes, b64decodeBytes]
      rw [if_neg (fun hand => sextetCharNePad _ h3 hand.1)]
      rw [if_pos (by simp)]
      have e1 : sextetVal (sextetChar (b1 / 4)) * 4 +
          sextetVal (sextetChar (b1 % 4 * 16 + b2 / 16)) / 16 = b1 := by
        rw [sextetValSextetChar _ h1, sextetValSextetChar _ h2]; omega
      have e2 : sextetVal (sextetChar (b1 % 4 * 16 + b2 / 16)) % 16 * 16 +
          sextetVal (sextetChar (b2 % 16 * 4)) / 4 = b2 := by
        rw [sextetValSextetChar _ h2, sextetValSextetChar _ h3]; omega
      rw [e1, e2]
  | b1 :: b2 :: b3 :: rest, h => by
      have hb1 : b1 < 256 := h b1 (by simp)
      have hb2 : b2 < 256 := h b2 (by simp)
      have hb3 : b3 < 256 := h b3 (by simp)
      have h1 : b1 / 4 < 64 := by omega
      have h2 : b1 % 4 * 16 + b2 / 16 < 64 := by omega
      have h3 : b2 % 16 * 4 + b3 / 64 < 64 := by omega
      have h4 : b3 % 64 < 64 := by omega
      have ih := b64RoundTrip rest (fun b hb => h b (by simp [hb]))
      simp only [b64encodeBytes, b64decodeBytes]
      rw [if_neg (fun hand => sextetCharNePad _ h3 hand.1)]
      rw [if_neg (fun hand => sextetCharNePad _ h4 hand.1)]
      rw [ih]
      have e1 : sextetVal (sextetChar (b1 / 4)) * 4 +
          sextetVal (sextetChar (b1 % 4 * 16 + b2 / 16)) / 16 = b1 := by
        rw [sextetValSextetChar _ h1, sextetValSextetChar _ h2]; omega
      have e2 : sextetVal (sextetChar (b1 % 4 * 16 + b2 / 16)) % 16 * 16 +
          sextetVal (sextetChar (b2 % 16 * 4 + b3 / 64)) / 4 = b2 := by
        rw [sextetValSextetChar _ h2, sextetValSextetChar _ h3]; omega
      have e3 : sextetVal (sextetChar (b2 % 16 * 4 + b3 / 64)) % 4 * 64 +
          sextetVal (sextetChar (b3 % 64)) = b3 := by
        rw [sextetValSextetChar _ h3, sextetValSextetChar _ h4]; omega
      rw [e1, e2, e3]

end Text2Sql

namespace Text2Sql

/-- Helper: after overwriting key `k` in place, looking up `k` finds the
new value. -/
theorem findRepSelf (d : PyDict) (k : String) (v : Bytes)
    (ha : d.any (fun p => p.1 == k) = true) :
    ((d.map (fun p => if p.1 == k then (k, v) else p)).find?
      (fun p => p.1 == k)) = some (k, v) := by
  induction d with
  | nil => simp at ha
  | cons p ps ih =>
      by_cases hp : (p.1 == k) = true
      · simp only [List.map_cons, if_pos hp]
        have hh : ((k, v).1 == k) = true := by simp
        rw [@List.find?_cons_of_pos (String × Bytes) (fun q => q.1 == k) (k, v) _ hh]
      · have ha2 : ps.any (fun p => p.1 == k) = true := by
          simp only [List.any_cons, hp, Bool.false_or] at ha
          exact ha
        have hh : ¬((fun q : String × Bytes => q.1 == k) p = true) := hp
        simp only [List.map_cons, if_neg hp]
        rw [@List.find?_cons_of_neg (String × Bytes) (fun q => q.1 == k) p _ hh]
        exact ih ha2

/-- Helper: appending `(k, v)` to a dict with no key `k` makes lookup of
`k` find `v`. -/
theorem findAppendSelf (d : PyDict) (k : String) (v : Bytes)
    (ha : d.any (fun p => p.1 == k) = false) :
    ((d ++ [(k, v)]).find? (fun p => p.1 == k)) = some (k, v) := by
  rw [List.find?_append]
  have hnone : d.find? (fun p => p.1 == k) = none := by
    rw [List.find?_eq_none]
    intro x hx
    have := List.any_eq_false.mp ha x hx
    simpa using this
  rw [hnone]
  simp

/-- Helper: `d[k] = v` makes `d[k]` read back `v`. -/
theorem dictGetPySetSelf (d : PyDict) (k : String) (v : Bytes) :
    dictGet (pySet d k v) k = some v := by
  unfold pySet dictGet
  by_cases ha : d.any (fun p => p.1 == k) = true
  · rw [if_pos ha, findRepSelf d k v ha]
    rfl
  · have ha2 : d.any (fun p => p.1 == k) = false := by
      cases hx : d.any (fun p => p.1 == k)
      · rfl
      · exact absurd hx ha
    rw [if_neg (by simp [ha2]), findAppendSelf d k v ha2]
    rfl

/-- Helper: `d[k2] = v` leaves the value of a different key `k` alone. -/
theorem dictGetPySetNe (d : PyDict) (k k2 : String) (v : Bytes) (hk : k ≠ k2) :
    dictGet (pySet d k2 v) k = dictGet d k := by
  unfold pySet dictGet
  by_cases ha : d.any (fun p => p.1 == k2) = true
  · rw [if_pos ha]
    clear ha
    induction d with
    | nil => rfl
    | cons p ps ih =>
        by_cases hp : (p.1 == k2) = true
        · have hpeq : p.1 = k2 := by simpa using hp
          have hpk : ¬((fun q : String × Bytes => q.1 == k) p = true) := by
            simp [hpeq, Ne.symm hk]
          have hpk2 : ¬((fun q : String × Bytes => q.1 == k) (k2, v) = true) := by
            simp [Ne.symm hk]
          simp only [List.map_cons, if_pos hp]
          rw [@List.find?_cons_of_neg (String × Bytes) (fun q => q.1 == k) (k2, v) _ hpk2,
              @List.find?_cons_of_neg (String × Bytes) (fun q => q.1 == k) p _ hpk]
          exact ih
        · simp only [List.map_cons, if_neg hp]
          by_cases hpk : (p.1 == k) = true
          · rw [@List.find?_cons_of_pos (String × Bytes) (fun q => q.1 == k) p _ hpk,
                @List.find?_cons_of_pos (String × Bytes) (fun q => q.1 == k) p _ hpk]
          · have hpk2 : ¬((fun q : String × Bytes => q.1 == k) p = true) := hpk
            rw [@List.find?_cons_of_neg (String × Bytes) (fun q => q.1 == k) p _ hpk2,
                @List.find?_cons_of_neg (String × Bytes) (fun q => q.1 == k) p _ hpk2]
            exact ih
  · rw [if_neg ha]
    rw [List.find?_append]
    have h2 : ([(k2, v)].find? (fun p => p.1 == k)) = none := by
      simp [Ne.symm hk]
    rw [h2]
    cases d.find? (fun p => p.1 == k) <;> rfl

/-- Helper: filtering a dict with a predicate that keeps every entry of key
`k` does not change the value read at `k`. -/
theorem dictGetFilterKey (d : PyDict) (k : String) (pr : String × Bytes → Bool)
    (hk : ∀ w, pr (k, w) = true) :
    dictGet (d.filter pr) k = dictGet d k := by
  unfold dictGet
  induction d with
  | nil => rfl
  | cons p ps ih =>
      by_cases hpk : (p.1 == k) = true
      · have hpeq : p.1 = k := by simpa using hpk
        have hpr : pr p = true := by
          have hp2 : p = (k, p.2) := by
            rw [← hpeq]
          rw [hp2]
          exact hk p.2
        rw [List.filter_cons_of_pos hpr,
            @List.find?_cons_of_pos (String × Bytes) (fun q => q.1 == k) p _ hpk,
            @List.find?_cons_of_pos (String × Bytes) (fun q => q.1 == k) p _ hpk]
      · have hpk2 : ¬((fun q : String × Bytes => q.1 == k) p = true) := hpk
        by_cases hpr : pr p = true
        · rw [List.filter_cons_of_pos hpr,
              @List.find?_cons_of_neg (String × Bytes) (fun q => q.1 == k) p _ hpk2,
              @List.find?_cons_of_neg (String × Bytes) (fun q => q.1 == k) p _ hpk2]
          exact ih
        · rw [List.filter_cons_of_neg hpr,
              @List.find?_cons_of_neg (String × Bytes) (fun q => q.1 == k) p _ hpk2]
          exact ih

/-- Helper: after an upsert, the store holds exactly one entry under the
upserted id — the upserted one. -/
theorem chromaUpsertFilterSelf (col : List (String × ChromaEntry)) (id : String)
    (e : ChromaEntry) :
    (chromaUpsert col id e).filter (fun p => p.1 == id) = [(id, e)] := by
  unfold chromaUpsert
  rw [List.filter_append]
  have h1 : (col.filter (fun p => !(p.1 == id))).filter (fun p => p.1 == id) = [] := by
    rw [List.filter_filter]
    apply List.filter_eq_nil_iff.mpr
    intro x hx
    simp
  rw [h1]
  simp

/-- Helper: every stored entry's metadata carries the `DateLastModified`
stamp, provided no `vector_fields` value names that key. -/
theorem mkChromaEntryStamp (d : PyDict) (vf : List (String × String)) (t : Bytes)
    (em : List Bytes → List (List Rat))
    (hts : ∀ f ∈ vf, f.2 ≠ "DateLastModified") :
    dictGet (mkChromaEntry d vf t em).metadata "DateLastModified" = some t := by
  unfold mkChromaEntry
  simp only []
  rw [dictGetFilterKey]
  · exact dictGetPySetSelf d "DateLastModified" t
  · intro w
    simp only [Bool.not_eq_true']
    rw [List.any_eq_false]
    intro f hf
    simp [hts f hf]

end Text2Sql

namespace Text2Sql

/-- C8: the stored identity is a deterministic, reversible (injective on
byte strings) encoding of the question alone, so two `add_entry_to_index`
calls whose documents carry the same `Question` hit the same id and leave
exactly one stored entry — the second call's — and every upsert stamps
`DateLastModified` into the stored metadata. -/
theorem C8_upsert_identity (col : List (String × ChromaEntry)) (d1 d2 : PyDict)
    (vf1 vf2 : List (String × String)) (t1 t2 : Bytes)
    (em : List Bytes → List (List Rat)) (q : Bytes)
    (_hq1 : dictGet d1 "Question" = some q)
    (hq2 : dictGet d2 "Question" = some q)
    (_hv1 : vf1.any (fun f => (dictGet d1 f.1).isNone) = false)
    (hv2 : vf2.any (fun f => (dictGet d2 f.1).isNone) = false)
    (hts : ∀ f ∈ vf2, f.2 ≠ "DateLastModified") :
    (add_entry_to_index (add_entry_to_index col d1 vf1 t1 em) d2 vf2 t2 em).filter
        (fun p => p.1 == questionId q)
      = [(questionId q, mkChromaEntry d2 vf2 t2 em)] ∧
    dictGet (mkChromaEntry d2 vf2 t2 em).metadata "DateLastModified" = some t2 ∧
    (∀ qa qb : Bytes, (∀ b ∈ qa, b < 256) → (∀ b ∈ qb, b < 256) →
       questionId qa = questionId qb → qa = qb) := by
  refine ⟨?_, mkChromaEntryStamp d2 vf2 t2 em hts, ?_⟩
  · have hq2s : dictGet (pySet d2 "DateLastModified" t2) "Question" = some q := by
      rw [dictGetPySetNe d2 "Question" "DateLastModified" t2 (by decide)]
      exact hq2
    conv_lhs =>
      rw [add_entry_to_index]
    rw [if_neg (by simp [hv2]), hq2s]
    exact chromaUpsertFilterSelf _ _ _
  · intro qa qb ha hb hqid
    have henc : b64encodeBytes qa = b64encodeBytes qb := by
      have hdata := congrArg String.data hqid
      simpa [questionId] using hdata
    have hda := b64RoundTrip qa ha
    have hdb := b64RoundTrip qb hb
    rw [henc, hdb] at hda
    exact (Option.some.inj hda).symm

/-- Witness for C8: the spec's scenario C, with question bytes "Q1" and two
successive documents. -/
theorem C8_upsert_identity_witness :
    dictGet (mkChromaEntry [("Question", [81, 49]), ("Answer", [65, 50])]
        [("Question", "QuestionEmbedding")] [116, 50]
        (fun _ => [[1]])).metadata "DateLastModified" = some [116, 50] :=
  (C8_upsert_identity [] [("Question", [81, 49]), ("Answer", [65, 49])]
    [("Question", [81, 49]), ("Answer", [65, 50])]
    [("Question", "QuestionEmbedding")] [("Question", "QuestionEmbedding")]
    [116, 49] [116, 50] (fun _ => [[1]]) [81, 49]
    (by decide) (by decide) (by decide) (by decide) (by decide)).2.1

end Text2Sql
